import Mathlib

/-!
Shallow embedding of `src/Dome1.py` (School-Idolmaster automation script).

The repository's core is five functions: `capture_screen`, `find_template`,
`find_button`, `click_position`, `auto_click`.  Python's effects are embedded
in a writer-plus-exception monad `OutM`: a computation returns the list of
observable events it performed (captures, template loads, cv2 match calls,
sleeps, pointer moves, clicks) together with either a value or a raised
Python exception.  `try/except Exception` becomes `pyCatch`, which — exactly
as in Python — does NOT intercept `KeyboardInterrupt`.

External collaborators (the display, the filesystem/image codec, OpenCV's
normalized cross-correlation kernel, and the pyautogui pointer device) are
modelled as oracle fields of an `Env` record: the display is a time-indexed
stream of capture outcomes, `cv2.imread` is a partial map from paths to
images, and the numeric value of `cv2.matchTemplate`'s TM_CCOEFF_NORMED
score at each offset is an arbitrary rational-valued oracle (the correlation
formula itself is OpenCV library code, not repository code; none of the
claims depend on its numeric definition, only on how the repository uses
the resulting score matrix).  What IS translated from the repository is
everything `Dome1.py` does with those collaborators: the set of tested
offsets (template fully contained in the screen), the `minMaxLoc` scan for
the maximal score, the threshold comparison, the integer-division center
computation, the retry loop with its `break`, the click loop, and every
`try/except` boundary.
-/

/-- Python exception kinds that can arise in `Dome1.py`.  `keyboardInterrupt`
derives from `BaseException`, so `except Exception` clauses do not catch it. -/
inductive PyErr where
  | captureError
  | imageNotFound
  | cvError
  | actuationError
  | keyboardInterrupt
deriving DecidableEq

/-- Observable events performed by the embedded program: screen captures,
`cv2.imread` calls, `cv2.matchTemplate` calls, sleeps, pointer moves, clicks. -/
inductive Ev where
  | captureAttempt
  | imreadCall (path : String)
  | matchCall
  | sleep (secs : ℚ)
  | moveTo (x y : Nat) (duration : ℚ)
  | click
deriving DecidableEq

/-- Writer-plus-exception monad: the event trace of a computation together
with its outcome (a value, or a raised Python exception). -/
def OutM (α : Type) : Type := List Ev × Except PyErr α

/-- Return a value, performing no events. -/
def OutM.pure (a : α) : OutM α := ([], Except.ok a)

/-- Sequencing: run `x`; if it raised, propagate; otherwise run the
continuation and concatenate the traces. -/
def OutM.bind (x : OutM α) (f : α → OutM β) : OutM β :=
  match x with
  | (t, Except.error e) => (t, Except.error e)
  | (t, Except.ok a) => (t ++ (f a).1, (f a).2)

instance : Monad OutM where
  pure := OutM.pure
  bind := OutM.bind

/-- Record one observable event. -/
def emit (e : Ev) : OutM Unit := ([e], Except.ok ())

/-- Raise a Python exception. -/
def raise (e : PyErr) : OutM α := ([], Except.error e)

/-- Embedding of `try: body except Exception: handler`.  `KeyboardInterrupt`
is not an `Exception` subclass in Python, so it passes through uncaught. -/
def pyCatch (body : OutM α) (handler : PyErr → OutM α) : OutM α :=
  match body with
  | (t, Except.ok a) => (t, Except.ok a)
  | (t, Except.error e) =>
    if e = PyErr.keyboardInterrupt then (t, Except.error e)
    else (t ++ (handler e).1, (handler e).2)

/-- A single-channel (grayscale) pixel buffer, as produced by
`cv2.imread(..., IMREAD_GRAYSCALE)` or `cv2.cvtColor(..., BGR2GRAY)`.
`shape` is `(h, w)`; intensities are idealized as rationals. -/
structure Img where
  h : Nat
  w : Nat
  pix : Nat → Nat → ℚ

/-- A three-channel BGR pixel buffer, as returned by `capture_screen`. -/
structure ColorImg where
  h : Nat
  w : Nat
  pix : Nat → Nat → ℚ × ℚ × ℚ

/-- Embedding of `cv2.cvtColor(screenshot, cv2.COLOR_BGR2GRAY)`: same
dimensions, OpenCV's luma weights Y = 0.299 R + 0.587 G + 0.114 B
(channel order in `ColorImg.pix` is B, G, R). -/
def cvtColorGray (c : ColorImg) : Img :=
  { h := c.h
    w := c.w
    pix := fun y x =>
      match c.pix y x with
      | (b, g, r) => (299 * r + 587 * g + 114 * b) / 1000 }

/-- The environment of external collaborators.  `captureResult n` is the
outcome of the n-th screen capture of a run (the display changes over time);
`fs` is `cv2.imread`; `score` is the TM_CCOEFF_NORMED correlation value of
the (gray screen, template) pair at a given offset; `moveToResult` and
`clickResult` are the outcomes of the pyautogui pointer primitives, the
latter indexed by click ordinal within one `click_position` call. -/
structure Env where
  score : Img → Img → Nat × Nat → ℚ
  fs : String → Option Img
  captureResult : Nat → Except PyErr ColorImg
  moveToResult : Nat × Nat → ℚ → Except PyErr Unit
  clickResult : Nat → Except PyErr Unit

/-- The offsets `(x, y)` at which `cv2.matchTemplate` evaluates the
correlation: all translations keeping the template fully inside the screen,
enumerated in row-major order as in the OpenCV result matrix. -/
def matchOffsets (screen tmpl : Img) : List (Nat × Nat) :=
  (List.range (screen.h - tmpl.h + 1)).flatMap (fun y =>
    (List.range (screen.w - tmpl.w + 1)).map (fun x => (x, y)))

/-- The score matrix of `cv2.matchTemplate`, flattened in row-major order:
each valid offset paired with its correlation score. -/
def matchScores (score : Img → Img → Nat × Nat → ℚ) (screen tmpl : Img) :
    List ((Nat × Nat) × ℚ) :=
  (matchOffsets screen tmpl).map (fun loc => (loc, score screen tmpl loc))

/-- Embedding of the `cv2.matchTemplate(gray_screen, template, TM_CCOEFF_NORMED)`
call: OpenCV raises (`cv2.error`) unless the template is nonempty and fits
inside the search image; otherwise it returns the score matrix. -/
def matchTemplate (score : Img → Img → Nat × Nat → ℚ) (screen tmpl : Img) :
    OutM (List ((Nat × Nat) × ℚ)) :=
  OutM.bind (emit Ev.matchCall) (fun _ =>
    if 0 < tmpl.h ∧ 0 < tmpl.w ∧ tmpl.h ≤ screen.h ∧ tmpl.w ≤ screen.w then
      OutM.pure (matchScores score screen tmpl)
    else raise PyErr.cvError)

/-- Scan step of `cv2.minMaxLoc`: keep the running best, replacing it only
on a strictly larger score (so the first maximal offset in scan order wins). -/
def minMaxLocGo : List ((Nat × Nat) × ℚ) → ((Nat × Nat) × ℚ) → ((Nat × Nat) × ℚ)
  | [], best => best
  | e :: rest, best => minMaxLocGo rest (if best.2 < e.2 then e else best)

/-- The max part of `cv2.minMaxLoc(result)`: the location of the maximal
score and its value (`max_loc`, `max_val`).  The min part is unused by
`Dome1.py` and omitted. -/
def minMaxLoc (result : List ((Nat × Nat) × ℚ)) : Option ((Nat × Nat) × ℚ) :=
  match result with
  | [] => none
  | e :: rest => some (minMaxLocGo rest e)

/-- Default of `find_template`'s `threshold` parameter (`Dome1.py` line 36). -/
def find_template_default_threshold : ℚ := 6 / 10

/-- Default of `find_button`'s `max_attempts` parameter (line 75). -/
def find_button_default_max_attempts : Nat := 3

/-- Default of `find_button`'s `interval` parameter (line 76). -/
def find_button_default_interval : ℚ := 1

/-- Default of `find_button`'s `threshold` parameter (line 77). -/
def find_button_default_threshold : ℚ := 7 / 10

/-- Default of `click_position`'s `clicks` parameter (line 109). -/
def click_position_default_clicks : Nat := 1

/-- Default of `click_position`'s `move_duration` parameter (line 110). -/
def click_position_default_move_duration : ℚ := 3 / 10

/-- Default of `click_position`'s `interval` parameter (line 111). -/
def click_position_default_interval : ℚ := 2 / 10

/-- Default of `auto_click`'s `max_attempts` parameter (line 137). -/
def auto_click_default_max_attempts : Nat := 3

/-- Default of `auto_click`'s `click_times` parameter (line 138). -/
def auto_click_default_click_times : Nat := 1

/-- Default of `auto_click`'s `success_delay` parameter (line 139). -/
def auto_click_default_success_delay : ℚ := 1

/-- Embedding of `capture_screen` (lines 20-30): capture the display,
re-raising any failure after logging (`raise` in the `except` clause).
`n` indexes which capture of the run this is (the display is a
time-varying oracle; the Python function reads the current display). -/
def capture_screen (env : Env) (n : Nat) : OutM ColorImg :=
  pyCatch
    (OutM.bind (emit Ev.captureAttempt) (fun _ =>
      match env.captureResult n with
      | Except.error e => raise e
      | Except.ok screenshot => OutM.pure screenshot))
    (fun e => raise e)

/-- Embedding of `find_template` (lines 34-70): load the template with
`cv2.imread` (raising `ImageNotFoundError` when it yields `None`), convert
the screenshot to grayscale, run `matchTemplate` and `minMaxLoc`, compare
`max_val` against `threshold`, and on success return the center
`top_left + (template_w // 2, template_h // 2)`.  The whole body sits in a
`try` whose `except Exception` clause logs and returns `None`. -/
def find_template (env : Env) (screenshot : ColorImg) (template_path : String)
    (threshold : ℚ) : OutM (Option (Nat × Nat)) :=
  pyCatch
    (OutM.bind (emit (Ev.imreadCall template_path)) (fun _ =>
      match env.fs template_path with
      | none => raise PyErr.imageNotFound
      | some template =>
        OutM.bind (matchTemplate env.score (cvtColorGray screenshot) template)
          (fun result =>
            match minMaxLoc result with
            | none => raise PyErr.cvError
            | some (max_loc, max_val) =>
              if max_val < threshold then OutM.pure none
              else OutM.pure (some (max_loc.1 + template.w / 2,
                                    max_loc.2 + template.h / 2)))))
    (fun _ => OutM.pure none)

/-- Outcome of one iteration of `find_button`'s `for` loop: an early
`return position`, a `break`, or falling through to the next iteration. -/
inductive LoopStep where
  | ret (p : Nat × Nat)
  | brk
  | cont

/-- One iteration of `find_button`'s loop body (lines 86-102): capture,
match, return the position if found, otherwise sleep when more attempts
remain; the surrounding `try`'s `except Exception` clause turns any raised
exception into `break`. -/
def find_button_iter (env : Env) (template_path : String) (threshold interval : ℚ)
    (max_attempts attempt : Nat) : OutM LoopStep :=
  pyCatch
    (OutM.bind (capture_screen env attempt) (fun screenshot =>
      OutM.bind (find_template env screenshot template_path threshold)
        (fun position =>
          match position with
          | some p => OutM.pure (LoopStep.ret p)
          | none =>
            OutM.bind
              (if attempt < max_attempts then emit (Ev.sleep interval)
               else OutM.pure ())
              (fun _ => OutM.pure LoopStep.cont))))
    (fun _ => OutM.pure LoopStep.brk)

/-- The `for attempt in range(1, max_attempts + 1)` loop of `find_button`,
by remaining-iteration fuel; falling off the loop returns `None` (line 105). -/
def find_button_loop (env : Env) (template_path : String) (threshold interval : ℚ)
    (max_attempts : Nat) : Nat → Nat → OutM (Option (Nat × Nat))
  | 0, _ => OutM.pure none
  | Nat.succ fuel, attempt =>
    OutM.bind (find_button_iter env template_path threshold interval max_attempts attempt)
      (fun step =>
        match step with
        | LoopStep.ret p => OutM.pure (some p)
        | LoopStep.brk => OutM.pure none
        | LoopStep.cont =>
          find_button_loop env template_path threshold interval max_attempts fuel
            (attempt + 1))

/-- Embedding of `find_button` (lines 74-105): retrying capture-and-match,
attempts numbered 1 through `max_attempts`. -/
def find_button (env : Env) (template_path : String) (max_attempts : Nat)
    (interval threshold : ℚ) : OutM (Option (Nat × Nat)) :=
  find_button_loop env template_path threshold interval max_attempts max_attempts 1

/-- The `for _ in range(clicks)` loop of `click_position` (lines 126-129):
each iteration performs one `pyautogui.click()` then `time.sleep(interval)`.
`i` is the click ordinal, indexing the pointer-device oracle. -/
def click_loop (env : Env) (interval : ℚ) : Nat → Nat → OutM Unit
  | 0, _ => OutM.pure ()
  | Nat.succ n, i =>
    OutM.bind
      (match env.clickResult i with
       | Except.error e => raise e
       | Except.ok _ => emit Ev.click)
      (fun _ =>
        OutM.bind (emit (Ev.sleep interval)) (fun _ =>
          click_loop env interval n (i + 1)))

/-- Embedding of `click_position` (lines 108-133): move the pointer to
`position` over `move_duration`, then run the click loop; the whole body is
in a `try` whose `except Exception` clause logs and swallows the failure. -/
def click_position (env : Env) (position : Nat × Nat) (clicks : Nat)
    (move_duration interval : ℚ) : OutM Unit :=
  pyCatch
    (OutM.bind
      (match env.moveToResult position move_duration with
       | Except.error e => raise e
       | Except.ok _ => emit (Ev.moveTo position.1 position.2 move_duration))
      (fun _ => click_loop env interval clicks 0))
    (fun _ => OutM.pure ())

/-- Embedding of `auto_click` (lines 136-157): locate via `find_button`;
absent means `return False`; otherwise `click_position(position,
clicks=click_times)` — which therefore uses `click_position`'s own default
`move_duration` and `interval` — then `time.sleep(success_delay)` and
`return True`.  `interval` and `threshold` stand for the `**find_kwargs`
forwarded to `find_button`. -/
def auto_click (env : Env) (template_path : String) (max_attempts click_times : Nat)
    (success_delay interval threshold : ℚ) : OutM Bool :=
  OutM.bind (find_button env template_path max_attempts interval threshold)
    (fun position =>
      match position with
      | none => OutM.pure false
      | some pos =>
        OutM.bind
          (click_position env pos click_times click_position_default_move_duration
            click_position_default_interval)
          (fun _ =>
            OutM.bind (emit (Ev.sleep success_delay)) (fun _ => OutM.pure true)))

/-- A bare `find_template(screenshot, template_path)` call, as the
defaulted `threshold` resolves it. -/
def find_template_with_default (env : Env) (screenshot : ColorImg)
    (template_path : String) : OutM (Option (Nat × Nat)) :=
  find_template env screenshot template_path find_template_default_threshold

/-- A bare `find_button(template_path)` call, as the defaulted parameters
resolve it. -/
def find_button_with_defaults (env : Env) (template_path : String) :
    OutM (Option (Nat × Nat)) :=
  find_button env template_path find_button_default_max_attempts
    find_button_default_interval find_button_default_threshold

/-- Event classifier: is this a screen-capture attempt? -/
def Ev.isCaptureAttempt : Ev → Bool
  | Ev.captureAttempt => true
  | _ => false

/-- Event classifier: is this a `cv2.imread` call (one per `find_template`)? -/
def Ev.isImread : Ev → Bool
  | Ev.imreadCall _ => true
  | _ => false

/-- Event classifier: is this a discrete click event? -/
def Ev.isClick : Ev → Bool
  | Ev.click => true
  | _ => false

/-- Event classifier: is this a pointer move (one per actuator invocation)? -/
def Ev.isMoveTo : Ev → Bool
  | Ev.moveTo _ _ _ => true
  | _ => false

/-- Event classifier: is this a sleep? -/
def Ev.isSleep : Ev → Bool
  | Ev.sleep _ => true
  | _ => false

/-- Event classifier: any pointer-actuator event (move or click). -/
def Ev.isActuation (e : Ev) : Bool := e.isMoveTo || e.isClick

/-- The trace shape of a fault-free click loop: a click followed by a sleep,
per requested click — note the sleep after the final click. -/
def clickSequence (clicks : Nat) (interval : ℚ) : List Ev :=
  match clicks with
  | 0 => []
  | Nat.succ n => Ev.click :: Ev.sleep interval :: clickSequence n interval

deriving instance DecidableEq for Except

/-- A 1-by-1 all-zero template image, for concrete test runs. -/
def tinyTemplate : Img := { h := 1, w := 1, pix := fun _ _ => 0 }

/-- A 3-by-3 template image, strictly larger than `tinyScreen`. -/
def bigTemplate : Img := { h := 3, w := 3, pix := fun _ _ => 0 }

/-- A 2-by-2 all-black screen capture, for concrete test runs. -/
def tinyScreen : ColorImg := { h := 2, w := 2, pix := fun _ _ => (0, 0, 0) }

/-- A 2-by-3 all-black screen capture, distinguishable from `tinyScreen`
by its width. -/
def wideScreen : ColorImg := { h := 2, w := 3, pix := fun _ _ => (0, 0, 0) }

/-- Environment where every collaborator succeeds and every offset scores a
perfect 1: the template is found on the first attempt. -/
def envOk : Env :=
  { score := fun _ _ _ => 1
    fs := fun _ => some tinyTemplate
    captureResult := fun _ => Except.ok tinyScreen
    moveToResult := fun _ _ => Except.ok ()
    clickResult := fun _ => Except.ok () }

/-- Environment where every collaborator succeeds but every offset scores 0:
the template is never present in any captured screen. -/
def envLow : Env :=
  { score := fun _ _ _ => 0
    fs := fun _ => some tinyTemplate
    captureResult := fun _ => Except.ok tinyScreen
    moveToResult := fun _ _ => Except.ok ()
    clickResult := fun _ => Except.ok () }

/-- Environment where `cv2.imread` finds no file at any path (template-load
fault on every attempt), while captures succeed. -/
def envMiss : Env :=
  { score := fun _ _ _ => 1
    fs := fun _ => none
    captureResult := fun _ => Except.ok tinyScreen
    moveToResult := fun _ _ => Except.ok ()
    clickResult := fun _ => Except.ok () }

/-- Environment whose display shows `tinyScreen` (scoring 0) on capture 1
and `wideScreen` (scoring 1) afterwards: the template appears on attempt 2. -/
def envSeq : Env :=
  { score := fun s _ _ => if s.w = 3 then 1 else 0
    fs := fun _ => some tinyTemplate
    captureResult := fun k =>
      if k = 1 then Except.ok tinyScreen else Except.ok wideScreen
    moveToResult := fun _ _ => Except.ok ()
    clickResult := fun _ => Except.ok () }

/-- Environment where every screen capture fails with a `CaptureError`. -/
def envCapFail : Env :=
  { score := fun _ _ _ => 1
    fs := fun _ => some tinyTemplate
    captureResult := fun _ => Except.error PyErr.captureError
    moveToResult := fun _ _ => Except.ok ()
    clickResult := fun _ => Except.ok () }

/-- Environment where attempt 1 captures a screen that never matches
(score 0) and every later capture fails with a `CaptureError`: the first
capture fault arises only at attempt 2, mid-retry. -/
def envLateCapFail : Env :=
  { score := fun _ _ _ => 0
    fs := fun _ => some tinyTemplate
    captureResult := fun k =>
      if k = 1 then Except.ok tinyScreen else Except.error PyErr.captureError
    moveToResult := fun _ _ => Except.ok ()
    clickResult := fun _ => Except.ok () }

/-- Environment where the template file loads but is strictly larger than
every captured screen. -/
def envBig : Env :=
  { score := fun _ _ _ => 1
    fs := fun _ => some bigTemplate
    captureResult := fun _ => Except.ok tinyScreen
    moveToResult := fun _ _ => Except.ok ()
    clickResult := fun _ => Except.ok () }

/-! ## Helper lemmas: the monad and the matcher -/

@[simp]
theorem OutM.bind_ok (t : List Ev) (a : α) (f : α → OutM β) :
    OutM.bind (t, Except.ok a) f = (t ++ (f a).1, (f a).2) := rfl

@[simp]
theorem OutM.bind_err (t : List Ev) (e : PyErr) (f : α → OutM β) :
    OutM.bind (t, Except.error e) f = (t, Except.error e) := rfl

@[simp]
theorem pyCatch_ok (t : List Ev) (a : α) (h : PyErr → OutM α) :
    pyCatch (t, Except.ok a) h = (t, Except.ok a) := rfl

theorem pyCatch_err (t : List Ev) (e : PyErr) (h : PyErr → OutM α) :
    pyCatch (t, Except.error e) h =
      if e = PyErr.keyboardInterrupt then (t, Except.error e)
      else (t ++ (h e).1, (h e).2) := rfl

@[simp]
theorem cvtColorGray_h (c : ColorImg) : (cvtColorGray c).h = c.h := rfl

@[simp]
theorem cvtColorGray_w (c : ColorImg) : (cvtColorGray c).w = c.w := rfl

theorem matchOffsets_mem (s t : Img) (x y : Nat) :
    (x, y) ∈ matchOffsets s t ↔ x < s.w - t.w + 1 ∧ y < s.h - t.h + 1 := by
  simp only [matchOffsets, List.mem_flatMap, List.mem_map, List.mem_range,
    Prod.mk.injEq]
  constructor
  · rintro ⟨a, ha, b, hb, rfl, rfl⟩
    exact ⟨hb, ha⟩
  · rintro ⟨hx, hy⟩
    exact ⟨y, hy, x, hx, rfl, rfl⟩

theorem matchOffsets_ne_nil (s t : Img) : matchOffsets s t ≠ [] := by
  intro hnil
  have : (0, 0) ∈ matchOffsets s t := by
    rw [matchOffsets_mem]
    exact ⟨Nat.succ_pos _, Nat.succ_pos _⟩
  rw [hnil] at this
  exact List.not_mem_nil _ this

theorem minMaxLocGo_mem (l : List ((Nat × Nat) × ℚ)) :
    ∀ b, minMaxLocGo l b ∈ b :: l := by
  induction l with
  | nil => intro b; simp [minMaxLocGo]
  | cons e rest ih =>
    intro b
    simp only [minMaxLocGo]
    by_cases hlt : b.2 < e.2
    · rw [if_pos hlt]
      rcases List.mem_cons.mp (ih e) with h | h
      · rw [h]; simp
      · simp [List.mem_cons, h]
    · rw [if_neg hlt]
      rcases List.mem_cons.mp (ih b) with h | h
      · rw [h]; simp
      · simp [List.mem_cons, h]

theorem minMaxLocGo_le (l : List ((Nat × Nat) × ℚ)) :
    ∀ b, ∀ e ∈ b :: l, e.2 ≤ (minMaxLocGo l b).2 := by
  induction l with
  | nil =>
    intro b e he
    rcases List.mem_cons.mp he with h | h
    · rw [h]; exact le_refl _
    · exact absurd h (List.not_mem_nil _)
  | cons c rest ih =>
    intro b e he
    simp only [minMaxLocGo]
    by_cases hlt : b.2 < c.2
    · rw [if_pos hlt]
      rcases List.mem_cons.mp he with h | h
      · rw [h]
        exact le_trans (le_of_lt hlt) (ih c c (List.mem_cons_self c rest))
      · rcases List.mem_cons.mp h with h2 | h2
        · rw [h2]
          exact ih c c (List.mem_cons_self c rest)
        · exact ih c e (List.mem_cons_of_mem c h2)
    · rw [if_neg hlt]
      rcases List.mem_cons.mp he with h | h
      · rw [h]
        exact ih b b (List.mem_cons_self b rest)
      · rcases List.mem_cons.mp h with h2 | h2
        · rw [h2]
          exact le_trans (le_of_not_lt hlt) (ih b b (List.mem_cons_self b rest))
        · exact ih b e (List.mem_cons_of_mem b h2)

theorem minMaxLoc_mem (l : List ((Nat × Nat) × ℚ)) (r : (Nat × Nat) × ℚ)
    (h : minMaxLoc l = some r) : r ∈ l := by
  cases l with
  | nil => simp [minMaxLoc] at h
  | cons e rest =>
    simp only [minMaxLoc, Option.some.injEq] at h
    rw [← h]
    exact minMaxLocGo_mem rest e

theorem minMaxLoc_le (l : List ((Nat × Nat) × ℚ)) (r : (Nat × Nat) × ℚ)
    (h : minMaxLoc l = some r) : ∀ e ∈ l, e.2 ≤ r.2 := by
  cases l with
  | nil => simp [minMaxLoc] at h
  | cons c rest =>
    simp only [minMaxLoc, Option.some.injEq] at h
    intro e he
    rw [← h]
    exact minMaxLocGo_le rest c e he

theorem minMaxLoc_isSome (l : List ((Nat × Nat) × ℚ)) (h : l ≠ []) :
    ∃ r, minMaxLoc l = some r := by
  cases l with
  | nil => exact absurd rfl h
  | cons e rest => exact ⟨minMaxLocGo rest e, rfl⟩

theorem matchScores_ne_nil (score : Img → Img → Nat × Nat → ℚ) (s t : Img) :
    matchScores score s t ≠ [] := by
  simp only [matchScores, ne_eq, List.map_eq_nil_iff]
  exact matchOffsets_ne_nil s t

/-! ## Helper lemmas: find_template path analysis -/

theorem find_template_missing (env : Env) (s : ColorImg) (tp : String) (th : ℚ)
    (h : env.fs tp = none) :
    find_template env s tp th = ([Ev.imreadCall tp], Except.ok none) := by
  simp [find_template, emit, OutM.bind, OutM.pure, raise, pyCatch, h]

theorem matchTemplate_fit (score : Img → Img → Nat × Nat → ℚ) (s t : Img)
    (h : 0 < t.h ∧ 0 < t.w ∧ t.h ≤ s.h ∧ t.w ≤ s.w) :
    matchTemplate score s t = ([Ev.matchCall], Except.ok (matchScores score s t)) := by
  simp [matchTemplate, emit, OutM.bind, OutM.pure, if_pos h]

theorem matchTemplate_nofit (score : Img → Img → Nat × Nat → ℚ) (s t : Img)
    (h : ¬(0 < t.h ∧ 0 < t.w ∧ t.h ≤ s.h ∧ t.w ≤ s.w)) :
    matchTemplate score s t = ([Ev.matchCall], Except.error PyErr.cvError) := by
  simp [matchTemplate, emit, OutM.bind, raise, if_neg h]

theorem find_template_nofit (env : Env) (s : ColorImg) (tp : String) (th : ℚ)
    (tmpl : Img) (h : env.fs tp = some tmpl)
    (hbad : ¬(0 < tmpl.h ∧ 0 < tmpl.w ∧ tmpl.h ≤ s.h ∧ tmpl.w ≤ s.w)) :
    find_template env s tp th = ([Ev.imreadCall tp, Ev.matchCall], Except.ok none) := by
  have hmt : matchTemplate env.score (cvtColorGray s) tmpl =
      ([Ev.matchCall], Except.error PyErr.cvError) :=
    matchTemplate_nofit env.score (cvtColorGray s) tmpl (by simpa using hbad)
  simp [find_template, emit, OutM.bind, OutM.pure, raise, pyCatch, h, hmt]

theorem find_template_fit (env : Env) (s : ColorImg) (tp : String) (th : ℚ)
    (tmpl : Img) (loc : Nat × Nat) (v : ℚ) (h : env.fs tp = some tmpl)
    (hfit : 0 < tmpl.h ∧ 0 < tmpl.w ∧ tmpl.h ≤ s.h ∧ tmpl.w ≤ s.w)
    (hmml : minMaxLoc (matchScores env.score (cvtColorGray s) tmpl) = some (loc, v)) :
    find_template env s tp th =
      ([Ev.imreadCall tp, Ev.matchCall],
       Except.ok (if v < th then none
                  else some (loc.1 + tmpl.w / 2, loc.2 + tmpl.h / 2))) := by
  have hmt : matchTemplate env.score (cvtColorGray s) tmpl =
      ([Ev.matchCall], Except.ok (matchScores env.score (cvtColorGray s) tmpl)) :=
    matchTemplate_fit env.score (cvtColorGray s) tmpl (by simpa using hfit)
  by_cases hv : v < th
  · simp [find_template, emit, OutM.bind, OutM.pure, pyCatch, h, hmt, hmml, hv]
  · simp [find_template, emit, OutM.bind, OutM.pure, pyCatch, h, hmt, hmml, hv]

theorem find_template_cases (env : Env) (s : ColorImg) (tp : String) (th : ℚ) :
    find_template env s tp th = ([Ev.imreadCall tp], Except.ok none) ∨
    ∃ r, find_template env s tp th = ([Ev.imreadCall tp, Ev.matchCall], Except.ok r) := by
  cases hfs : env.fs tp with
  | none => exact Or.inl (find_template_missing env s tp th hfs)
  | some tmpl =>
    by_cases hfit : 0 < tmpl.h ∧ 0 < tmpl.w ∧ tmpl.h ≤ s.h ∧ tmpl.w ≤ s.w
    · obtain ⟨⟨loc, v⟩, hmml⟩ :=
        minMaxLoc_isSome _ (matchScores_ne_nil env.score (cvtColorGray s) tmpl)
      exact Or.inr ⟨_, find_template_fit env s tp th tmpl loc v hfs hfit hmml⟩
    · exact Or.inr ⟨none, find_template_nofit env s tp th tmpl hfs hfit⟩

theorem find_template_res_ok (env : Env) (s : ColorImg) (tp : String) (th : ℚ) :
    ∃ r, (find_template env s tp th).2 = Except.ok r := by
  rcases find_template_cases env s tp th with h | ⟨r, h⟩
  · exact ⟨none, by rw [h]⟩
  · exact ⟨r, by rw [h]⟩

theorem find_template_pair (env : Env) (s : ColorImg) (tp : String) (th : ℚ) :
    ∃ t r, find_template env s tp th = (t, Except.ok r) := by
  rcases find_template_cases env s tp th with h | ⟨r, h⟩
  · exact ⟨_, none, h⟩
  · exact ⟨_, r, h⟩

theorem find_template_count_capture (env : Env) (s : ColorImg) (tp : String)
    (th : ℚ) : List.countP Ev.isCaptureAttempt (find_template env s tp th).1 = 0 := by
  rcases find_template_cases env s tp th with h | ⟨r, h⟩ <;>
    simp [h, Ev.isCaptureAttempt]

theorem find_template_count_imread (env : Env) (s : ColorImg) (tp : String)
    (th : ℚ) : List.countP Ev.isImread (find_template env s tp th).1 = 1 := by
  rcases find_template_cases env s tp th with h | ⟨r, h⟩ <;>
    simp [h, Ev.isImread]

theorem find_template_count_actuation (env : Env) (s : ColorImg) (tp : String)
    (th : ℚ) : List.countP Ev.isActuation (find_template env s tp th).1 = 0 := by
  rcases find_template_cases env s tp th with h | ⟨r, h⟩ <;>
    simp [h, Ev.isActuation, Ev.isMoveTo, Ev.isClick]

/-! ## Helper lemmas: capture_screen and the find_button loop -/

theorem capture_screen_ok (env : Env) (n : Nat) (img : ColorImg)
    (h : env.captureResult n = Except.ok img) :
    capture_screen env n = ([Ev.captureAttempt], Except.ok img) := by
  simp [capture_screen, emit, OutM.bind, OutM.pure, raise, pyCatch, h]

theorem capture_screen_err (env : Env) (n : Nat) (e : PyErr)
    (h : env.captureResult n = Except.error e) :
    capture_screen env n = ([Ev.captureAttempt], Except.error e) := by
  by_cases hk : e = PyErr.keyboardInterrupt <;>
    simp [capture_screen, emit, OutM.bind, raise, pyCatch, h, hk]

theorem find_button_iter_found (env : Env) (tp : String) (th iv : ℚ)
    (n a : Nat) (img : ColorImg) (t : List Ev) (p : Nat × Nat)
    (hcap : env.captureResult a = Except.ok img)
    (hft : find_template env img tp th = (t, Except.ok (some p))) :
    find_button_iter env tp th iv n a =
      (Ev.captureAttempt :: t, Except.ok (LoopStep.ret p)) := by
  have hcs := capture_screen_ok env a img hcap
  simp [find_button_iter, OutM.bind, OutM.pure, pyCatch, hcs, hft]

theorem find_button_iter_none (env : Env) (tp : String) (th iv : ℚ)
    (n a : Nat) (img : ColorImg) (t : List Ev)
    (hcap : env.captureResult a = Except.ok img)
    (hft : find_template env img tp th = (t, Except.ok none)) :
    find_button_iter env tp th iv n a =
      (Ev.captureAttempt :: (t ++ (if a < n then [Ev.sleep iv] else [])),
       Except.ok LoopStep.cont) := by
  have hcs := capture_screen_ok env a img hcap
  by_cases ha : a < n <;>
    simp [find_button_iter, emit, OutM.bind, OutM.pure, pyCatch, hcs, hft, ha]

theorem find_button_iter_capfail (env : Env) (tp : String) (th iv : ℚ)
    (n a : Nat) (e : PyErr) (hcap : env.captureResult a = Except.error e)
    (hne : e ≠ PyErr.keyboardInterrupt) :
    find_button_iter env tp th iv n a =
      ([Ev.captureAttempt], Except.ok LoopStep.brk) := by
  have hcs := capture_screen_err env a e hcap
  simp [find_button_iter, OutM.bind, OutM.pure, pyCatch, hcs, hne]

theorem find_button_iter_ki (env : Env) (tp : String) (th iv : ℚ) (n a : Nat)
    (hcap : env.captureResult a = Except.error PyErr.keyboardInterrupt) :
    find_button_iter env tp th iv n a =
      ([Ev.captureAttempt], Except.error PyErr.keyboardInterrupt) := by
  have hcs := capture_screen_err env a PyErr.keyboardInterrupt hcap
  simp [find_button_iter, OutM.bind, pyCatch, hcs]

theorem find_button_loop_succ (env : Env) (tp : String) (th iv : ℚ)
    (n fuel a : Nat) :
    find_button_loop env tp th iv n (fuel + 1) a =
      OutM.bind (find_button_iter env tp th iv n a)
        (fun step =>
          match step with
          | LoopStep.ret p => OutM.pure (some p)
          | LoopStep.brk => OutM.pure none
          | LoopStep.cont => find_button_loop env tp th iv n fuel (a + 1)) := rfl

theorem find_button_iter_cases (env : Env) (tp : String) (th iv : ℚ) (n a : Nat) :
    (∃ img t r, env.captureResult a = Except.ok img ∧
      find_template env img tp th = (t, Except.ok r) ∧
      ((∃ p, r = some p ∧ find_button_iter env tp th iv n a =
          (Ev.captureAttempt :: t, Except.ok (LoopStep.ret p))) ∨
       (r = none ∧ find_button_iter env tp th iv n a =
          (Ev.captureAttempt :: (t ++ (if a < n then [Ev.sleep iv] else [])),
           Except.ok LoopStep.cont)))) ∨
    find_button_iter env tp th iv n a = ([Ev.captureAttempt], Except.ok LoopStep.brk) ∨
    find_button_iter env tp th iv n a =
      ([Ev.captureAttempt], Except.error PyErr.keyboardInterrupt) := by
  cases hcap : env.captureResult a with
  | error e =>
    by_cases hk : e = PyErr.keyboardInterrupt
    · subst hk
      exact Or.inr (Or.inr (find_button_iter_ki env tp th iv n a hcap))
    · exact Or.inr (Or.inl (find_button_iter_capfail env tp th iv n a e hcap hk))
  | ok img =>
    obtain ⟨t, r, hft⟩ := find_template_pair env img tp th
    refine Or.inl ⟨img, t, r, rfl, hft, ?_⟩
    cases r with
    | some p =>
      exact Or.inl ⟨p, rfl, find_button_iter_found env tp th iv n a img t p hcap hft⟩
    | none =>
      exact Or.inr ⟨rfl, find_button_iter_none env tp th iv n a img t hcap hft⟩

theorem find_button_loop_no_actuation (env : Env) (tp : String) (th iv : ℚ)
    (n : Nat) : ∀ fuel a,
    List.countP Ev.isActuation (find_button_loop env tp th iv n fuel a).1 = 0 := by
  intro fuel
  induction fuel with
  | zero => intro a; simp [find_button_loop, OutM.pure]
  | succ fuel ih =>
    intro a
    rw [find_button_loop_succ]
    rcases find_button_iter_cases env tp th iv n a with
      ⟨img, t, r, hcap, hft, hcase⟩ | hiter | hiter
    · have htft : List.countP Ev.isActuation t = 0 := by
        have := find_template_count_actuation env img tp th
        rw [hft] at this
        exact this
      rcases hcase with ⟨p, hr, hiter⟩ | ⟨hr, hiter⟩
      · simp [hiter, OutM.bind, OutM.pure, Ev.isActuation, Ev.isMoveTo, Ev.isClick,
          List.countP_cons, htft]
      · by_cases ha : a < n <;>
          simp [hiter, OutM.bind, OutM.pure, Ev.isActuation, Ev.isMoveTo, Ev.isClick,
            List.countP_cons, List.countP_append, htft, ha, ih]
    · simp [hiter, OutM.bind, OutM.pure, Ev.isActuation, Ev.isMoveTo, Ev.isClick]
    · simp [hiter, OutM.bind, Ev.isActuation, Ev.isMoveTo, Ev.isClick]

theorem find_button_loop_res (env : Env) (tp : String) (th iv : ℚ)
    (n : Nat) : ∀ fuel a,
    (∃ r, (find_button_loop env tp th iv n fuel a).2 = Except.ok r) ∨
    (find_button_loop env tp th iv n fuel a).2 = Except.error PyErr.keyboardInterrupt := by
  intro fuel
  induction fuel with
  | zero => intro a; exact Or.inl ⟨none, rfl⟩
  | succ fuel ih =>
    intro a
    rw [find_button_loop_succ]
    rcases find_button_iter_cases env tp th iv n a with
      ⟨img, t, r, hcap, hft, hcase⟩ | hiter | hiter
    · rcases hcase with ⟨p, hr, hiter⟩ | ⟨hr, hiter⟩
      · exact Or.inl ⟨some p, by simp [hiter, OutM.bind, OutM.pure]⟩
      · rcases ih (a + 1) with ⟨r2, hr2⟩ | hr2
        · exact Or.inl ⟨r2, by simp [hiter, OutM.bind, hr2]⟩
        · exact Or.inr (by simp [hiter, OutM.bind, hr2])
    · exact Or.inl ⟨none, by simp [hiter, OutM.bind, OutM.pure]⟩
    · exact Or.inr (by simp [hiter, OutM.bind])

/-! ## Helper lemmas: the click loop and auto_click -/

theorem pyCatch_pure_res (body : OutM α) (x : α) :
    (∃ a, (pyCatch body (fun _ => OutM.pure x)).2 = Except.ok a) ∨
    (pyCatch body (fun _ => OutM.pure x)).2 = Except.error PyErr.keyboardInterrupt := by
  obtain ⟨t, r⟩ := body
  cases r with
  | ok a => exact Or.inl ⟨a, rfl⟩
  | error e =>
    by_cases hk : e = PyErr.keyboardInterrupt
    · subst hk
      exact Or.inr (by simp [pyCatch])
    · exact Or.inl ⟨x, by simp [pyCatch, OutM.pure, hk]⟩

theorem click_loop_ok (env : Env) (iv : ℚ)
    (hclick : ∀ i, env.clickResult i = Except.ok ()) :
    ∀ n i, click_loop env iv n i = (clickSequence n iv, Except.ok ()) := by
  intro n
  induction n with
  | zero => intro i; rfl
  | succ n ih =>
    intro i
    simp [click_loop, emit, OutM.bind, hclick i, ih (i + 1), clickSequence]

theorem click_position_ok (env : Env) (pos : Nat × Nat) (clicks : Nat)
    (d iv : ℚ) (hmove : env.moveToResult pos d = Except.ok ())
    (hclick : ∀ i, env.clickResult i = Except.ok ()) :
    click_position env pos clicks d iv =
      (Ev.moveTo pos.1 pos.2 d :: clickSequence clicks iv, Except.ok ()) := by
  simp [click_position, emit, OutM.bind, pyCatch, hmove,
    click_loop_ok env iv hclick clicks 0]

theorem click_position_res (env : Env) (pos : Nat × Nat) (clicks : Nat)
    (d iv : ℚ) :
    (click_position env pos clicks d iv).2 = Except.ok () ∨
    (click_position env pos clicks d iv).2 = Except.error PyErr.keyboardInterrupt := by
  rcases pyCatch_pure_res
      (OutM.bind
        (match env.moveToResult pos d with
         | Except.error e => raise e
         | Except.ok _ => emit (Ev.moveTo pos.1 pos.2 d))
        (fun _ => click_loop env iv clicks 0)) () with ⟨a, ha⟩ | ha
  · exact Or.inl (by rw [click_position, ha])
  · exact Or.inr (by rw [click_position, ha])

theorem clickSequence_count_click (n : Nat) (iv : ℚ) :
    List.countP Ev.isClick (clickSequence n iv) = n := by
  induction n with
  | zero => simp [clickSequence]
  | succ n ih => simp [clickSequence, List.countP_cons, Ev.isClick, ih]

theorem clickSequence_count_sleep (n : Nat) (iv : ℚ) :
    List.countP Ev.isSleep (clickSequence n iv) = n := by
  induction n with
  | zero => simp [clickSequence]
  | succ n ih => simp [clickSequence, List.countP_cons, Ev.isSleep, ih]

theorem clickSequence_count_moveTo (n : Nat) (iv : ℚ) :
    List.countP Ev.isMoveTo (clickSequence n iv) = 0 := by
  induction n with
  | zero => simp [clickSequence]
  | succ n ih => simp [clickSequence, List.countP_cons, Ev.isMoveTo, ih]

theorem find_button_no_actuation (env : Env) (tp : String) (n : Nat)
    (iv th : ℚ) :
    List.countP Ev.isActuation (find_button env tp n iv th).1 = 0 :=
  find_button_loop_no_actuation env tp th iv n n 1

theorem find_button_count_moveTo (env : Env) (tp : String) (n : Nat)
    (iv th : ℚ) :
    List.countP Ev.isMoveTo (find_button env tp n iv th).1 = 0 := by
  have hmono : List.countP Ev.isMoveTo (find_button env tp n iv th).1 ≤
      List.countP Ev.isActuation (find_button env tp n iv th).1 := by
    apply List.countP_mono_left
    intro e _ he
    simp [Ev.isActuation, he]
  have h0 := find_button_no_actuation env tp n iv th
  omega

theorem find_button_count_click (env : Env) (tp : String) (n : Nat)
    (iv th : ℚ) :
    List.countP Ev.isClick (find_button env tp n iv th).1 = 0 := by
  have hmono : List.countP Ev.isClick (find_button env tp n iv th).1 ≤
      List.countP Ev.isActuation (find_button env tp n iv th).1 := by
    apply List.countP_mono_left
    intro e _ he
    simp [Ev.isActuation, he]
  have h0 := find_button_no_actuation env tp n iv th
  omega

/-! ## Helper lemmas: whole-loop scenarios -/

theorem find_button_loop_allnone (env : Env) (tp : String) (th iv : ℚ) (n : Nat)
    (hft : ∀ k img, env.captureResult k = Except.ok img →
      (find_template env img tp th).2 = Except.ok none)
    (hcap : ∀ k, ∃ img, env.captureResult k = Except.ok img) :
    ∀ fuel a, (find_button_loop env tp th iv n fuel a).2 = Except.ok none ∧
      List.countP Ev.isCaptureAttempt (find_button_loop env tp th iv n fuel a).1 = fuel ∧
      List.countP Ev.isImread (find_button_loop env tp th iv n fuel a).1 = fuel := by
  intro fuel
  induction fuel with
  | zero =>
    intro a
    exact ⟨rfl, by simp [find_button_loop, OutM.pure], by simp [find_button_loop, OutM.pure]⟩
  | succ fuel ih =>
    intro a
    obtain ⟨img, himg⟩ := hcap a
    have hres := hft a img himg
    have hpair : find_template env img tp th =
        ((find_template env img tp th).1, Except.ok none) := by
      rw [← hres]
      rfl
    have hiter := find_button_iter_none env tp th iv n a img _ himg hpair
    have ht0 : List.countP Ev.isCaptureAttempt (find_template env img tp th).1 = 0 :=
      find_template_count_capture env img tp th
    have ht1 : List.countP Ev.isImread (find_template env img tp th).1 = 1 :=
      find_template_count_imread env img tp th
    rcases ih (a + 1) with ⟨ihres, ihcap, ihim⟩
    rw [find_button_loop_succ, hiter]
    refine ⟨?_, ?_, ?_⟩
    · simp [OutM.bind, ihres]
    · by_cases ha : a < n <;>
        simp [OutM.bind, List.countP_cons, List.countP_append, ha,
          Ev.isCaptureAttempt, ht0, ihcap, Nat.add_comm]
    · by_cases ha : a < n <;>
        simp [OutM.bind, List.countP_cons, List.countP_append, ha,
          Ev.isImread, ht1, ihim, Nat.add_comm]

theorem find_button_loop_capfail (env : Env) (tp : String) (th iv : ℚ)
    (n : Nat) (e : PyErr) (hke : e ≠ PyErr.keyboardInterrupt) :
    ∀ fuel a k, 1 ≤ k → k ≤ fuel →
      env.captureResult (a + k - 1) = Except.error e →
      (∀ j, a ≤ j → j < a + k - 1 → ∃ img, env.captureResult j = Except.ok img ∧
        (find_template env img tp th).2 = Except.ok none) →
      (find_button_loop env tp th iv n fuel a).2 = Except.ok none ∧
      List.countP Ev.isCaptureAttempt (find_button_loop env tp th iv n fuel a).1 = k ∧
      List.countP Ev.isImread (find_button_loop env tp th iv n fuel a).1 = k - 1 := by
  intro fuel
  induction fuel with
  | zero =>
    intro a k hk1 hk2 _ _
    omega
  | succ fuel ih =>
    intro a k hk1 hk2 hfault hprev
    by_cases hk : k = 1
    · subst hk
      have hf : env.captureResult a = Except.error e := by
        have heq : a + 1 - 1 = a := by omega
        rwa [heq] at hfault
      have hiter := find_button_iter_capfail env tp th iv n a e hf hke
      rw [find_button_loop_succ, hiter]
      exact ⟨rfl, by simp [OutM.bind, OutM.pure, Ev.isCaptureAttempt],
        by simp [OutM.bind, OutM.pure, Ev.isImread]⟩
    · obtain ⟨img, himg, hftres⟩ := hprev a (le_refl a) (by omega)
      have hpair : find_template env img tp th =
          ((find_template env img tp th).1, Except.ok none) := by
        rw [← hftres]
        rfl
      have hiter := find_button_iter_none env tp th iv n a img _ himg hpair
      have ht0 := find_template_count_capture env img tp th
      have ht1 := find_template_count_imread env img tp th
      have hf2 : env.captureResult (a + 1 + (k - 1) - 1) = Except.error e := by
        have heq : a + 1 + (k - 1) - 1 = a + k - 1 := by omega
        rw [heq]
        exact hfault
      have hp2 : ∀ j, a + 1 ≤ j → j < a + 1 + (k - 1) - 1 →
          ∃ img2, env.captureResult j = Except.ok img2 ∧
            (find_template env img2 tp th).2 = Except.ok none := by
        intro j hj1 hj2
        exact hprev j (by omega) (by omega)
      rcases ih (a + 1) (k - 1) (by omega) (by omega) hf2 hp2 with ⟨hres, hcap, him⟩
      rw [find_button_loop_succ, hiter]
      refine ⟨?_, ?_, ?_⟩
      · simp [OutM.bind, hres]
      · by_cases ha : a < n <;>
          simp [OutM.bind, List.countP_cons, List.countP_append, ha,
            Ev.isCaptureAttempt, ht0, hcap] <;> omega
      · by_cases ha : a < n <;>
          simp [OutM.bind, List.countP_cons, List.countP_append, ha,
            Ev.isImread, ht1, him] <;> omega

/-! ## The claims -/

/-- C1 (corrected).  The claim asserted that a capture fault AND a
template-load fault both drive `find_button` into a terminal aborted state
with no further capture-and-match attempts.  That is true of capture faults
only: a missing/corrupt template is caught inside `find_template` (which
returns absence), so the locator retries until its attempts are exhausted.
This theorem proves the amended behavior: (a) when the capture of attempt
`k` (any `1 ≤ k ≤ n`, the earlier attempts having captured and not matched)
fails with a non-interrupt fault, the locator aborts there — exactly `k`
captures and `k - 1` matcher invocations happen, none after the fault — and
returns absence; (b) on a template-load fault every one of the `n` attempts
runs a full capture-and-match cycle (`n` captures, `n` template loads) and
the locator then returns absence — observably identical to exhaustion. -/
theorem C1_fault_collapse (env : Env) (tp : String) (n : Nat) (iv th : ℚ)
    (e : PyErr) (k : Nat) :
    (1 ≤ k → k ≤ n → e ≠ PyErr.keyboardInterrupt →
      env.captureResult k = Except.error e →
      (∀ j, 1 ≤ j → j < k → ∃ img, env.captureResult j = Except.ok img ∧
        (find_template env img tp th).2 = Except.ok none) →
      (find_button env tp n iv th).2 = Except.ok none ∧
      List.countP Ev.isCaptureAttempt (find_button env tp n iv th).1 = k ∧
      List.countP Ev.isImread (find_button env tp n iv th).1 = k - 1) ∧
    (env.fs tp = none → (∀ j, ∃ img, env.captureResult j = Except.ok img) →
      (find_button env tp n iv th).2 = Except.ok none ∧
      List.countP Ev.isCaptureAttempt (find_button env tp n iv th).1 = n ∧
      List.countP Ev.isImread (find_button env tp n iv th).1 = n) := by
  constructor
  · intro hk1 hkn hke hfault hprev
    have hf : env.captureResult (1 + k - 1) = Except.error e := by
      have heq : 1 + k - 1 = k := by omega
      rw [heq]
      exact hfault
    have hp : ∀ j, 1 ≤ j → j < 1 + k - 1 → ∃ img,
        env.captureResult j = Except.ok img ∧
        (find_template env img tp th).2 = Except.ok none := by
      intro j hj1 hj2
      exact hprev j hj1 (by omega)
    exact find_button_loop_capfail env tp th iv n e hke n 1 k hk1 hkn hf hp
  · intro hfs hcap
    have hft : ∀ j img, env.captureResult j = Except.ok img →
        (find_template env img tp th).2 = Except.ok none := by
      intro j img _
      rw [find_template_missing env img tp th hfs]
    exact find_button_loop_allnone env tp th iv n hft hcap n 1

/-- C1 witness: at concrete inputs, (a) a capture fault at attempt 1 stops
the locator after one capture and zero matcher calls; (b) a capture fault
first arising at attempt 2 — after a fault-free no-match attempt 1 — stops
the locator after exactly 2 captures and 1 matcher call, with no third
attempt; (c) a missing template file still produces all 3 capture-and-match
cycles before absence. -/
theorem C1_fault_collapse_witness :
    ((find_button envCapFail "btn.png" 3 1 (mkRat 7 10)).2 = Except.ok none ∧
      List.countP Ev.isCaptureAttempt
        (find_button envCapFail "btn.png" 3 1 (mkRat 7 10)).1 = 1 ∧
      List.countP Ev.isImread
        (find_button envCapFail "btn.png" 3 1 (mkRat 7 10)).1 = 0) ∧
    ((find_button envLateCapFail "btn.png" 3 1 (mkRat 7 10)).2 = Except.ok none ∧
      List.countP Ev.isCaptureAttempt
        (find_button envLateCapFail "btn.png" 3 1 (mkRat 7 10)).1 = 2 ∧
      List.countP Ev.isImread
        (find_button envLateCapFail "btn.png" 3 1 (mkRat 7 10)).1 = 1) ∧
    ((find_button envMiss "btn.png" 3 1 (mkRat 7 10)).2 = Except.ok none ∧
      List.countP Ev.isCaptureAttempt
        (find_button envMiss "btn.png" 3 1 (mkRat 7 10)).1 = 3) := by
  refine ⟨⟨?_, ?_, ?_⟩, ⟨?_, ?_, ?_⟩, ⟨?_, ?_⟩⟩
  · exact ((C1_fault_collapse envCapFail "btn.png" 3 1 (mkRat 7 10)
      PyErr.captureError 1).1 (by decide) (by decide) (by decide) rfl
      (fun j hj1 hj2 => absurd (lt_of_le_of_lt hj1 hj2) (lt_irrefl 1))).1
  · exact ((C1_fault_collapse envCapFail "btn.png" 3 1 (mkRat 7 10)
      PyErr.captureError 1).1 (by decide) (by decide) (by decide) rfl
      (fun j hj1 hj2 => absurd (lt_of_le_of_lt hj1 hj2) (lt_irrefl 1))).2.1
  · exact ((C1_fault_collapse envCapFail "btn.png" 3 1 (mkRat 7 10)
      PyErr.captureError 1).1 (by decide) (by decide) (by decide) rfl
      (fun j hj1 hj2 => absurd (lt_of_le_of_lt hj1 hj2) (lt_irrefl 1))).2.2
  · exact ((C1_fault_collapse envLateCapFail "btn.png" 3 1 (mkRat 7 10)
      PyErr.captureError 2).1 (by decide) (by decide) (by decide) rfl
      (fun j hj1 hj2 => by
        have hj : j = 1 := by omega
        subst hj
        exact ⟨tinyScreen, rfl, by decide⟩)).1
  · exact ((C1_fault_collapse envLateCapFail "btn.png" 3 1 (mkRat 7 10)
      PyErr.captureError 2).1 (by decide) (by decide) (by decide) rfl
      (fun j hj1 hj2 => by
        have hj : j = 1 := by omega
        subst hj
        exact ⟨tinyScreen, rfl, by decide⟩)).2.1
  · exact ((C1_fault_collapse envLateCapFail "btn.png" 3 1 (mkRat 7 10)
      PyErr.captureError 2).1 (by decide) (by decide) (by decide) rfl
      (fun j hj1 hj2 => by
        have hj : j = 1 := by omega
        subst hj
        exact ⟨tinyScreen, rfl, by decide⟩)).2.2
  · exact ((C1_fault_collapse envMiss "btn.png" 3 1 (mkRat 7 10)
      PyErr.captureError 1).2 rfl (fun j => ⟨tinyScreen, rfl⟩)).1
  · exact ((C1_fault_collapse envMiss "btn.png" 3 1 (mkRat 7 10)
      PyErr.captureError 1).2 rfl (fun j => ⟨tinyScreen, rfl⟩)).2.1

/-- C1 counterexample: in `envMiss` every attempt suffers a template-load
fault (the file never loads), yet `find_button` with 3 attempts performs 3
captures — not the claimed collapse-after-the-faulting-attempt — before
returning absence.  This refutes the claim that a template-load fault makes
the locator perform no further capture-and-match attempts. -/
theorem C1_counterexample :
    envMiss.fs "btn.png" = none ∧
    (find_button envMiss "btn.png" 3 1 (mkRat 7 10)).2 = Except.ok none ∧
    List.countP Ev.isCaptureAttempt
      (find_button envMiss "btn.png" 3 1 (mkRat 7 10)).1 = 3 ∧
    ¬ List.countP Ev.isCaptureAttempt
      (find_button envMiss "btn.png" 3 1 (mkRat 7 10)).1 ≤ 1 :=
  ⟨rfl, by decide, by decide, by decide⟩

/-- C2 (confirmed).  For every environment — including ones injecting
capture faults, missing templates, cv2 faults and actuation faults at will —
`find_template` always returns a value (absence at worst), and `find_button`,
`click_position` and `auto_click` either return a value (`auto_click` a
boolean) or propagate only `KeyboardInterrupt`, the user-initiated
interruption signal that Python's `except Exception` does not catch.  No
other error reaches the workflow layer. -/
theorem C2_no_error_propagation (env : Env) (tp : String) (s : ColorImg)
    (pos : Nat × Nat) (n ct : Nat) (sd iv th d : ℚ) :
    (∃ r, (find_template env s tp th).2 = Except.ok r) ∧
    ((∃ r, (find_button env tp n iv th).2 = Except.ok r) ∨
      (find_button env tp n iv th).2 = Except.error PyErr.keyboardInterrupt) ∧
    ((click_position env pos ct d iv).2 = Except.ok () ∨
      (click_position env pos ct d iv).2 = Except.error PyErr.keyboardInterrupt) ∧
    ((∃ b : Bool, (auto_click env tp n ct sd iv th).2 = Except.ok b) ∨
      (auto_click env tp n ct sd iv th).2 = Except.error PyErr.keyboardInterrupt) := by
  refine ⟨find_template_res_ok env s tp th, find_button_loop_res env tp th iv n n 1,
    click_position_res env pos ct d iv, ?_⟩
  rcases hfb : find_button env tp n iv th with ⟨t, r⟩
  have hres := find_button_loop_res env tp th iv n n 1
  rw [show find_button_loop env tp th iv n n 1 = find_button env tp n iv th from rfl,
    hfb] at hres
  rcases hres with ⟨r2, hr2⟩ | hr2
  · simp only at hr2
    subst hr2
    cases r2 with
    | none => exact Or.inl ⟨false, by simp [auto_click, OutM.bind, OutM.pure, hfb]⟩
    | some p =>
      rcases click_position_res env p ct click_position_default_move_duration
          click_position_default_interval with hcp | hcp
      · rcases hcpe : click_position env p ct click_position_default_move_duration
            click_position_default_interval with ⟨t2, r3⟩
        rw [hcpe] at hcp
        simp only at hcp
        subst hcp
        exact Or.inl ⟨true, by
          simp [auto_click, OutM.bind, OutM.pure, emit, hfb, hcpe]⟩
      · rcases hcpe : click_position env p ct click_position_default_move_duration
            click_position_default_interval with ⟨t2, r3⟩
        rw [hcpe] at hcp
        simp only at hcp
        subst hcp
        exact Or.inr (by simp [auto_click, OutM.bind, hfb, hcpe])
  · simp only at hr2
    subst hr2
    exact Or.inr (by simp [auto_click, OutM.bind, hfb])

theorem find_button_loop_found (env : Env) (tp : String) (th iv : ℚ)
    (n fuel a : Nat) (img : ColorImg) (t : List Ev) (p : Nat × Nat)
    (hcap : env.captureResult a = Except.ok img)
    (hft : find_template env img tp th = (t, Except.ok (some p))) :
    find_button_loop env tp th iv n (fuel + 1) a =
      (Ev.captureAttempt :: t, Except.ok (some p)) := by
  rw [find_button_loop_succ, find_button_iter_found env tp th iv n a img t p hcap hft]
  simp [OutM.bind, OutM.pure]

theorem find_button_loop_step_none (env : Env) (tp : String) (th iv : ℚ)
    (n fuel a : Nat) (img : ColorImg) (t : List Ev)
    (hcap : env.captureResult a = Except.ok img)
    (hft : find_template env img tp th = (t, Except.ok none)) :
    find_button_loop env tp th iv n (fuel + 1) a =
      ((Ev.captureAttempt :: (t ++ (if a < n then [Ev.sleep iv] else []))) ++
        (find_button_loop env tp th iv n fuel (a + 1)).1,
       (find_button_loop env tp th iv n fuel (a + 1)).2) := by
  rw [find_button_loop_succ, find_button_iter_none env tp th iv n a img t hcap hft]
  simp [OutM.bind]

/-- C3 (confirmed).  With `maxAttempts = 3`: (1) when no captured screen
ever matches (every `find_template` call returns absence), `find_button`
performs exactly 3 capture-and-match cycles (3 captures, 3 template loads)
and returns absence; (2) when the match succeeds on attempt 1 it returns
that match after exactly 1 cycle; (3) when attempt 1 fails and attempt 2
matches, it returns the attempt-2 match immediately after exactly 2 cycles —
no third capture or match is performed. -/
theorem C3_retry_counts (env : Env) (tp : String) (iv th : ℚ) :
    ((∀ k img, env.captureResult k = Except.ok img →
        (find_template env img tp th).2 = Except.ok none) →
      (∀ k, ∃ img, env.captureResult k = Except.ok img) →
      (find_button env tp 3 iv th).2 = Except.ok none ∧
      List.countP Ev.isCaptureAttempt (find_button env tp 3 iv th).1 = 3 ∧
      List.countP Ev.isImread (find_button env tp 3 iv th).1 = 3) ∧
    (∀ img1 p, env.captureResult 1 = Except.ok img1 →
      (find_template env img1 tp th).2 = Except.ok (some p) →
      (find_button env tp 3 iv th).2 = Except.ok (some p) ∧
      List.countP Ev.isCaptureAttempt (find_button env tp 3 iv th).1 = 1 ∧
      List.countP Ev.isImread (find_button env tp 3 iv th).1 = 1) ∧
    (∀ img1 img2 p, env.captureResult 1 = Except.ok img1 →
      env.captureResult 2 = Except.ok img2 →
      (find_template env img1 tp th).2 = Except.ok none →
      (find_template env img2 tp th).2 = Except.ok (some p) →
      (find_button env tp 3 iv th).2 = Except.ok (some p) ∧
      List.countP Ev.isCaptureAttempt (find_button env tp 3 iv th).1 = 2 ∧
      List.countP Ev.isImread (find_button env tp 3 iv th).1 = 2) := by
  refine ⟨?_, ?_, ?_⟩
  · intro h1 h2
    exact find_button_loop_allnone env tp th iv 3 h1 h2 3 1
  · intro img1 p h1 hft
    have hpair : find_template env img1 tp th =
        ((find_template env img1 tp th).1, Except.ok (some p)) := by
      rw [← hft]
      rfl
    have hloop := find_button_loop_found env tp th iv 3 2 1 img1 _ p h1 hpair
    have hres : (find_button env tp 3 iv th).2 = Except.ok (some p) :=
      congrArg Prod.snd hloop
    have htr : (find_button env tp 3 iv th).1 =
        Ev.captureAttempt :: (find_template env img1 tp th).1 :=
      congrArg Prod.fst hloop
    have ht0 := find_template_count_capture env img1 tp th
    have ht1 := find_template_count_imread env img1 tp th
    refine ⟨hres, ?_, ?_⟩ <;>
      rw [htr] <;> simp [List.countP_cons, Ev.isCaptureAttempt, Ev.isImread, ht0, ht1]
  · intro img1 img2 p h1 h2 hft1 hft2
    have hpair1 : find_template env img1 tp th =
        ((find_template env img1 tp th).1, Except.ok none) := by
      rw [← hft1]
      rfl
    have hpair2 : find_template env img2 tp th =
        ((find_template env img2 tp th).1, Except.ok (some p)) := by
      rw [← hft2]
      rfl
    have hloop2 := find_button_loop_found env tp th iv 3 1 2 img2 _ p h2 hpair2
    have hloop1 := find_button_loop_step_none env tp th iv 3 2 1 img1 _ h1 hpair1
    rw [hloop2] at hloop1
    have hres : (find_button env tp 3 iv th).2 = Except.ok (some p) :=
      congrArg Prod.snd hloop1
    have htr : (find_button env tp 3 iv th).1 =
        (Ev.captureAttempt :: ((find_template env img1 tp th).1 ++
          (if 1 < 3 then [Ev.sleep iv] else []))) ++
          (Ev.captureAttempt :: (find_template env img2 tp th).1) :=
      congrArg Prod.fst hloop1
    have ht0a := find_template_count_capture env img1 tp th
    have ht0b := find_template_count_capture env img2 tp th
    have ht1a := find_template_count_imread env img1 tp th
    have ht1b := find_template_count_imread env img2 tp th
    refine ⟨hres, ?_, ?_⟩ <;>
      rw [htr] <;>
      simp [List.countP_cons, List.countP_append, Ev.isCaptureAttempt, Ev.isImread,
        Ev.isSleep, ht0a, ht0b, ht1a, ht1b]

/-- C3 witness: concrete runs — in `envLow` the template never matches and 3
cycles happen before absence; in `envOk` attempt 1 matches after 1 cycle; in
`envSeq` attempt 2 matches after exactly 2 cycles. -/
theorem C3_retry_counts_witness :
    ((find_button envLow "t.png" 3 1 (mkRat 7 10)).2 = Except.ok none ∧
      List.countP Ev.isCaptureAttempt
        (find_button envLow "t.png" 3 1 (mkRat 7 10)).1 = 3) ∧
    ((find_button envOk "t.png" 3 1 (mkRat 7 10)).2 = Except.ok (some (0, 0)) ∧
      List.countP Ev.isCaptureAttempt
        (find_button envOk "t.png" 3 1 (mkRat 7 10)).1 = 1) ∧
    ((find_button envSeq "t.png" 3 1 (mkRat 7 10)).2 = Except.ok (some (0, 0)) ∧
      List.countP Ev.isCaptureAttempt
        (find_button envSeq "t.png" 3 1 (mkRat 7 10)).1 = 2) := by
  refine ⟨⟨?_, ?_⟩, ⟨?_, ?_⟩, ⟨?_, ?_⟩⟩
  · exact ((C3_retry_counts envLow "t.png" 1 (mkRat 7 10)).1
      (fun k img h => by
        simp only [envLow, Except.ok.injEq] at h
        subst h
        decide)
      (fun k => ⟨tinyScreen, rfl⟩)).1
  · exact ((C3_retry_counts envLow "t.png" 1 (mkRat 7 10)).1
      (fun k img h => by
        simp only [envLow, Except.ok.injEq] at h
        subst h
        decide)
      (fun k => ⟨tinyScreen, rfl⟩)).2.1
  · exact ((C3_retry_counts envOk "t.png" 1 (mkRat 7 10)).2.1 tinyScreen (0, 0)
      rfl (by decide)).1
  · exact ((C3_retry_counts envOk "t.png" 1 (mkRat 7 10)).2.1 tinyScreen (0, 0)
      rfl (by decide)).2.1
  · exact ((C3_retry_counts envSeq "t.png" 1 (mkRat 7 10)).2.2 tinyScreen wideScreen
      (0, 0) rfl rfl (by decide) (by decide)).1
  · exact ((C3_retry_counts envSeq "t.png" 1 (mkRat 7 10)).2.2 tinyScreen wideScreen
      (0, 0) rfl rfl (by decide) (by decide)).2.1

/-- C4 (confirmed).  For every call to `auto_click`: when `find_button`
yields absence, `auto_click` returns `False` and the pointer actuator is
never invoked (its trace contains no move or click event); when
`find_button` yields a point and the pointer device does not fault,
`auto_click` invokes the actuator exactly once (exactly one pointer move,
to that point, using `click_position`'s default `move_duration`), issues
exactly `click_times` click events, and returns `True`. -/
theorem C4_perform (env : Env) (tp : String) (n ct : Nat) (sd iv th : ℚ) :
    ((find_button env tp n iv th).2 = Except.ok none →
      (auto_click env tp n ct sd iv th).2 = Except.ok false ∧
      List.countP Ev.isActuation (auto_click env tp n ct sd iv th).1 = 0) ∧
    (∀ pos, (find_button env tp n iv th).2 = Except.ok (some pos) →
      env.moveToResult pos click_position_default_move_duration = Except.ok () →
      (∀ i, env.clickResult i = Except.ok ()) →
      (auto_click env tp n ct sd iv th).2 = Except.ok true ∧
      List.countP Ev.isMoveTo (auto_click env tp n ct sd iv th).1 = 1 ∧
      List.countP Ev.isClick (auto_click env tp n ct sd iv th).1 = ct ∧
      Ev.moveTo pos.1 pos.2 click_position_default_move_duration ∈
        (auto_click env tp n ct sd iv th).1) := by
  constructor
  · intro hfb
    rcases hfbe : find_button env tp n iv th with ⟨t, r⟩
    rw [hfbe] at hfb
    simp only at hfb
    subst hfb
    have hcnt := find_button_no_actuation env tp n iv th
    rw [hfbe] at hcnt
    simp only at hcnt
    constructor
    · simp [auto_click, OutM.bind, OutM.pure, hfbe]
    · simp [auto_click, OutM.bind, OutM.pure, hfbe, hcnt]
  · intro pos hfb hmove hclick
    rcases hfbe : find_button env tp n iv th with ⟨t, r⟩
    rw [hfbe] at hfb
    simp only at hfb
    subst hfb
    have hcp := click_position_ok env pos ct click_position_default_move_duration
      click_position_default_interval hmove hclick
    have hmv := find_button_count_moveTo env tp n iv th
    have hck := find_button_count_click env tp n iv th
    rw [hfbe] at hmv hck
    simp only at hmv hck
    refine ⟨?_, ?_, ?_, ?_⟩
    · simp [auto_click, OutM.bind, OutM.pure, emit, hfbe, hcp]
    · simp [auto_click, OutM.bind, OutM.pure, emit, hfbe, hcp, List.countP_cons,
        List.countP_append, Ev.isMoveTo, Ev.isSleep, hmv,
        clickSequence_count_moveTo]
    · simp [auto_click, OutM.bind, OutM.pure, emit, hfbe, hcp, List.countP_cons,
        List.countP_append, Ev.isClick, hck, clickSequence_count_click]
    · simp [auto_click, OutM.bind, OutM.pure, emit, hfbe, hcp]

/-- C4 witness: concretely, with a never-matching template `auto_click`
returns `False` with no actuator event, and with a first-attempt match at
(0,0) it returns `True` after exactly one pointer move and 2 requested
clicks. -/
theorem C4_perform_witness :
    ((auto_click envLow "t.png" 3 2 1 1 (mkRat 7 10)).2 = Except.ok false ∧
      List.countP Ev.isActuation
        (auto_click envLow "t.png" 3 2 1 1 (mkRat 7 10)).1 = 0) ∧
    ((auto_click envOk "t.png" 3 2 1 1 (mkRat 7 10)).2 = Except.ok true ∧
      List.countP Ev.isMoveTo
        (auto_click envOk "t.png" 3 2 1 1 (mkRat 7 10)).1 = 1 ∧
      List.countP Ev.isClick
        (auto_click envOk "t.png" 3 2 1 1 (mkRat 7 10)).1 = 2) := by
  refine ⟨⟨?_, ?_⟩, ⟨?_, ?_, ?_⟩⟩
  · exact ((C4_perform envLow "t.png" 3 2 1 1 (mkRat 7 10)).1 (by decide)).1
  · exact ((C4_perform envLow "t.png" 3 2 1 1 (mkRat 7 10)).1 (by decide)).2
  · exact ((C4_perform envOk "t.png" 3 2 1 1 (mkRat 7 10)).2 (0, 0) (by decide)
      rfl (fun i => rfl)).1
  · exact ((C4_perform envOk "t.png" 3 2 1 1 (mkRat 7 10)).2 (0, 0) (by decide)
      rfl (fun i => rfl)).2.1
  · exact ((C4_perform envOk "t.png" 3 2 1 1 (mkRat 7 10)).2 (0, 0) (by decide)
      rfl (fun i => rfl)).2.2.1

/-- C5 (confirmed).  For every screen and loadable template that fits in it,
`minMaxLoc` yields a maximal score `v` over all tested offsets, and
`find_template` returns absence (a value, not an error) exactly when
`v < threshold`; when `v ≥ threshold` it returns the center of the
best-aligned rectangle, `top_left + (template_w // 2, template_h // 2)`
with integer division; a present result exists exactly when `v ≥ threshold`. -/
theorem C5_match_threshold (env : Env) (s : ColorImg) (tp : String) (tmpl : Img)
    (th : ℚ) (hload : env.fs tp = some tmpl)
    (hfit : 0 < tmpl.h ∧ 0 < tmpl.w ∧ tmpl.h ≤ s.h ∧ tmpl.w ≤ s.w) :
    ∃ loc v, minMaxLoc (matchScores env.score (cvtColorGray s) tmpl) = some (loc, v) ∧
      (∀ e ∈ matchScores env.score (cvtColorGray s) tmpl, e.2 ≤ v) ∧
      ((find_template env s tp th).2 = Except.ok none ↔ v < th) ∧
      (th ≤ v → (find_template env s tp th).2 =
        Except.ok (some (loc.1 + tmpl.w / 2, loc.2 + tmpl.h / 2))) ∧
      ((∃ q, (find_template env s tp th).2 = Except.ok (some q)) ↔ th ≤ v) := by
  obtain ⟨⟨loc, v⟩, hmml⟩ :=
    minMaxLoc_isSome _ (matchScores_ne_nil env.score (cvtColorGray s) tmpl)
  have hft := find_template_fit env s tp th tmpl loc v hload hfit hmml
  have hmax := minMaxLoc_le _ _ hmml
  refine ⟨loc, v, hmml, hmax, ?_, ?_, ?_⟩
  · rw [hft]
    by_cases hv : v < th <;> simp [hv]
  · intro hle
    rw [hft]
    simp [not_lt.mpr hle]
  · rw [hft]
    by_cases hv : v < th
    · simp only [hv, if_true, if_pos]
      constructor
      · rintro ⟨q, hq⟩
        simp at hq
      · intro hle
        exact absurd hv (not_lt.mpr hle)
    · simp only [hv, if_false, if_neg, not_false_iff]
      constructor
      · intro _
        exact not_lt.mp hv
      · intro _
        exact ⟨_, rfl⟩

/-- C5 witness: at a concrete all-ones-score environment with a 1-by-1
template on a 2-by-2 screen, the maximal score is attained, the result is
present at threshold 6/10 and equals the computed center. -/
theorem C5_match_threshold_witness :
    ∃ loc v, minMaxLoc (matchScores envOk.score (cvtColorGray tinyScreen)
        tinyTemplate) = some (loc, v) ∧
      (∀ e ∈ matchScores envOk.score (cvtColorGray tinyScreen) tinyTemplate,
        e.2 ≤ v) ∧
      ((find_template envOk tinyScreen "t.png" (mkRat 6 10)).2 = Except.ok none ↔
        v < mkRat 6 10) ∧
      (mkRat 6 10 ≤ v → (find_template envOk tinyScreen "t.png" (mkRat 6 10)).2 =
        Except.ok (some (loc.1 + tinyTemplate.w / 2, loc.2 + tinyTemplate.h / 2))) ∧
      ((∃ q, (find_template envOk tinyScreen "t.png" (mkRat 6 10)).2 =
        Except.ok (some q)) ↔ mkRat 6 10 ≤ v) :=
  C5_match_threshold envOk tinyScreen "t.png" tinyTemplate (mkRat 6 10) rfl
    (by decide)

/-- C6 (confirmed).  Whenever `find_template` returns a present result, its
coordinates lie strictly within the captured screen buffer's bounds
(`x < width` and `y < height`; coordinates are naturals, so `0 ≤ x, y`
holds by type). -/
theorem C6_match_in_bounds (env : Env) (s : ColorImg) (tp : String) (th : ℚ)
    (x y : Nat) (h : (find_template env s tp th).2 = Except.ok (some (x, y))) :
    x < s.w ∧ y < s.h := by
  cases hfs : env.fs tp with
  | none =>
    rw [find_template_missing env s tp th hfs] at h
    simp at h
  | some tmpl =>
    by_cases hfit : 0 < tmpl.h ∧ 0 < tmpl.w ∧ tmpl.h ≤ s.h ∧ tmpl.w ≤ s.w
    · obtain ⟨⟨⟨lx, ly⟩, v⟩, hmml⟩ :=
        minMaxLoc_isSome _ (matchScores_ne_nil env.score (cvtColorGray s) tmpl)
      rw [find_template_fit env s tp th tmpl (lx, ly) v hfs hfit hmml] at h
      by_cases hv : v < th
      · simp [hv] at h
      · simp only [hv, if_neg, if_false, Except.ok.injEq, Option.some.injEq,
          Prod.mk.injEq] at h
        have hmem : ((lx, ly), v) ∈ matchScores env.score (cvtColorGray s) tmpl :=
          minMaxLoc_mem _ _ hmml
        have hloc : (lx, ly) ∈ matchOffsets (cvtColorGray s) tmpl := by
          rcases List.mem_map.mp hmem with ⟨a, ha, haeq⟩
          rcases Prod.mk.injEq _ _ _ _ ▸ haeq with ⟨ha1, _⟩
          rw [ha1] at ha
          exact ha
        have hbnd := (matchOffsets_mem (cvtColorGray s) tmpl lx ly).mp hloc
        simp only [cvtColorGray_h, cvtColorGray_w] at hbnd
        have hw2 : tmpl.w / 2 < tmpl.w := Nat.div_lt_self hfit.2.1 one_lt_two
        have hh2 : tmpl.h / 2 < tmpl.h := Nat.div_lt_self hfit.1 one_lt_two
        have hwle : tmpl.w ≤ s.w := hfit.2.2.2
        have hhle : tmpl.h ≤ s.h := hfit.2.2.1
        rcases h with ⟨hx, hy⟩
        constructor
        · rw [← hx]
          omega
        · rw [← hy]
          omega
    · rw [find_template_nofit env s tp th tmpl hfs hfit] at h
      simp at h

/-- C6 witness: the concrete present result (0,0) on a 2-by-2 screen lies
within its bounds. -/
theorem C6_match_in_bounds_witness :
    (find_template envOk tinyScreen "t.png" (mkRat 6 10)).2 =
      Except.ok (some (0, 0)) ∧ 0 < tinyScreen.w ∧ 0 < tinyScreen.h := by
  refine ⟨by decide, ?_, ?_⟩
  · exact (C6_match_in_bounds envOk tinyScreen "t.png" (mkRat 6 10) 0 0
      (by decide)).1
  · exact (C6_match_in_bounds envOk tinyScreen "t.png" (mkRat 6 10) 0 0
      (by decide)).2

/-- C7 (confirmed).  `find_template` is deterministic and stateless: it is a
pure function of the collaborator environment, the screen buffer, the
template path and the threshold — it always returns a value, and running it
twice in sequence on identical inputs produces identical results and simply
repeats the identical event trace, with no state carried from the first run
to the second (the embedding threads no mutable state at all, mirroring the
source, which mutates neither the screen buffer nor the template). -/
theorem C7_match_deterministic (env : Env) (s : ColorImg) (tp : String)
    (th : ℚ) :
    ∃ t r, find_template env s tp th = (t, Except.ok r) ∧
      OutM.bind (find_template env s tp th) (fun r1 =>
        OutM.bind (find_template env s tp th) (fun r2 => OutM.pure (r1, r2))) =
        (t ++ t, Except.ok (r, r)) := by
  obtain ⟨t, r, hft⟩ := find_template_pair env s tp th
  refine ⟨t, r, hft, ?_⟩
  rw [hft]
  simp [OutM.bind, OutM.pure]

/-- C8 counterexample: the claim says `click_position` pauses only BETWEEN
consecutive clicks (not after the last), i.e. 1 pause for 2 clicks.  The
code's loop body is `click(); sleep(interval)`, so a 2-click call performs
2 sleeps — the trace ends with a sleep after the final click — refuting the
claim at this concrete input. -/
theorem C8_counterexample :
    (click_position envOk (5, 7) 2 (mkRat 3 10) (mkRat 2 10)).1 =
      [Ev.moveTo 5 7 (mkRat 3 10), Ev.click, Ev.sleep (mkRat 2 10),
       Ev.click, Ev.sleep (mkRat 2 10)] ∧
    ¬ List.countP Ev.isSleep
      (click_position envOk (5, 7) 2 (mkRat 3 10) (mkRat 2 10)).1 = 2 - 1 := by
  decide

/-- C8 (amended).  `click_position` first moves the pointer to the given
point over `move_duration`, then performs exactly `clicks` click events,
pausing `interval` seconds AFTER EACH click — including after the last one
(so a fault-free call performs `clicks` sleeps, not `clicks - 1`). -/
theorem C8_click_pause_after_each (env : Env) (pos : Nat × Nat) (clicks : Nat)
    (d iv : ℚ) (hmove : env.moveToResult pos d = Except.ok ())
    (hclick : ∀ i, env.clickResult i = Except.ok ()) :
    click_position env pos clicks d iv =
      (Ev.moveTo pos.1 pos.2 d :: clickSequence clicks iv, Except.ok ()) ∧
    List.countP Ev.isClick (clickSequence clicks iv) = clicks ∧
    List.countP Ev.isSleep (clickSequence clicks iv) = clicks :=
  ⟨click_position_ok env pos clicks d iv hmove hclick,
   clickSequence_count_click clicks iv, clickSequence_count_sleep clicks iv⟩

/-- C8 witness: a concrete fault-free 2-click call produces the
move-click-sleep-click-sleep trace with 2 clicks and 2 pauses. -/
theorem C8_click_pause_after_each_witness :
    click_position envOk (5, 7) 2 (mkRat 3 10) (mkRat 2 10) =
      (Ev.moveTo 5 7 (mkRat 3 10) :: clickSequence 2 (mkRat 2 10),
       Except.ok ()) ∧
    List.countP Ev.isClick (clickSequence 2 (mkRat 2 10)) = 2 ∧
    List.countP Ev.isSleep (clickSequence 2 (mkRat 2 10)) = 2 :=
  C8_click_pause_after_each envOk (5, 7) 2 (mkRat 3 10) (mkRat 2 10) rfl
    (fun _ => rfl)

/-- C9 (confirmed).  The two matcher entry points carry different default
confidence thresholds: `find_template` defaults `threshold` to 0.6 while
`find_button` defaults it to 0.7, and the two defaults differ; bare calls
resolve to those constants. -/
theorem C9_default_thresholds :
    find_template_default_threshold = 6 / 10 ∧
    find_button_default_threshold = 7 / 10 ∧
    find_template_default_threshold ≠ find_button_default_threshold ∧
    (∀ env s tp, find_template_with_default env s tp =
      find_template env s tp find_template_default_threshold) ∧
    (∀ env tp, find_button_with_defaults env tp =
      find_button env tp 3 1 find_button_default_threshold) := by
  refine ⟨rfl, rfl, ?_, fun env s tp => rfl, fun env tp => rfl⟩
  norm_num [find_template_default_threshold, find_button_default_threshold]

/-- C10 (confirmed).  When the loaded template is strictly larger than the
screen in either dimension, the `cv2.matchTemplate` call raises, the
`except Exception` clause of `find_template` swallows it, and the caller
sees absence — a value, not a propagated error. -/
theorem C10_oversized_template (env : Env) (s : ColorImg) (tp : String)
    (tmpl : Img) (th : ℚ) (hload : env.fs tp = some tmpl)
    (hbig : s.w < tmpl.w ∨ s.h < tmpl.h) :
    find_template env s tp th =
      ([Ev.imreadCall tp, Ev.matchCall], Except.ok none) := by
  apply find_template_nofit env s tp th tmpl hload
  rintro ⟨h1, h2, h3, h4⟩
  rcases hbig with hb | hb <;> omega

/-- C10 witness: the concrete 3-by-3 template on a 2-by-2 screen yields
absence, not an error. -/
theorem C10_oversized_template_witness :
    find_template envBig tinyScreen "t.png" (mkRat 6 10) =
      ([Ev.imreadCall "t.png", Ev.matchCall], Except.ok none) :=
  C10_oversized_template envBig tinyScreen "t.png" bigTemplate (mkRat 6 10)
    rfl (Or.inl (by decide))
